import Mathlib

/-!
Verification of the Maternal Health Tracking System (src/src/index.ts).

Shallow embedding: JavaScript numbers carrying vital-sign readings and ages
are modelled as `Int`; `bigint` nanosecond instants as `Int`; the azle
`StableBTreeMap` stores as association lists keyed by `String` with
replace-on-insert semantics; request bodies as structures in which the keys
that the route handlers default-then-spread are `Option`-valued (a `none`
models an absent key in `req.body`, and a present key overrides the default
because the `...req.body` spread comes after the defaults in the object
literal); thrown exceptions as `Except` errors.  JavaScript truthiness tests
on numbers (`metrics.bloodPressureSystolic && ...`, `!profile.age`) are
modelled as `≠ 0` / `= 0` tests, and on strings (`!profile.name`) as
emptiness tests.
-/

set_option autoImplicit false

namespace MaternalHealth

/-- RiskLevel enum from src/src/index.ts lines 13-17. -/
inductive RiskLevel where
  | LOW
  | MEDIUM
  | HIGH
deriving DecidableEq, Repr

/-- Trimester enum from src/src/index.ts lines 19-23. -/
inductive Trimester where
  | FIRST
  | SECOND
  | THIRD
deriving DecidableEq, Repr

/-- HealthcareProvider interface, lines 26-35. -/
structure HealthcareProvider where
  id : String
  name : String
  specialization : String
  licenseNumber : String
  contactInfo : String
  facilityId : String
  isActive : Bool
  lastUpdated : Int
deriving DecidableEq, Repr

/-- MaternalProfile interface, lines 37-52. -/
structure MaternalProfile where
  id : String
  name : String
  age : Int
  bloodType : String
  emergencyContact : String
  dueDate : Int
  currentTrimester : Trimester
  riskLevel : RiskLevel
  primaryCareProviderId : String
  createdAt : Int
  lastUpdated : Int
  medicalHistory : List String
  allergies : List String
  isHighRiskPregnancy : Bool
deriving DecidableEq, Repr

/-- HealthMetrics interface, lines 54-67. -/
structure HealthMetrics where
  id : String
  maternalProfileId : String
  recordedAt : Int
  weight : Int
  bloodPressureSystolic : Int
  bloodPressureDiastolic : Int
  bloodSugar : Int
  hemoglobinLevels : Int
  fetalHeartRate : Option Int
  notes : String
  recordedById : String
  isFlaggedForReview : Bool
deriving DecidableEq, Repr

/-- PrenatalVisit interface, lines 69-82. -/
structure PrenatalVisit where
  id : String
  maternalProfileId : String
  providerId : String
  scheduledDate : Int
  completed : Bool
  visitType : String
  findings : String
  recommendations : String
  nextVisitDate : Option Int
  prescriptions : List String
  followUpRequired : Bool
  cancellationReason : Option String
deriving DecidableEq, Repr

/-- HealthAlert interface, lines 84-96. -/
structure HealthAlert where
  id : String
  maternalProfileId : String
  createdAt : Int
  severity : RiskLevel
  description : String
  recommendedAction : String
  resolved : Bool
  resolvedAt : Option Int
  providerId : String
  resolutionNotes : Option String
  escalationLevel : Int
deriving DecidableEq, Repr

/-- A `StableBTreeMap` keyed by `String`, modelled as an association list
with at most one binding per key (maintained by `Store.insert`). -/
abbrev Store (α : Type) : Type := List (String × α)

/-- Point lookup, `StableBTreeMap.get`. -/
def Store.get {α : Type} (s : Store α) (k : String) : Option α :=
  (List.find? (fun e => e.1 == k) s).map (fun e => e.2)

/-- Insert, `StableBTreeMap.insert`: adds or replaces the binding for `k`. -/
def Store.insert {α : Type} (s : Store α) (k : String) (v : α) : Store α :=
  (k, v) :: List.filter (fun e => !(e.1 == k)) s

/-- Values listing, `StableBTreeMap.values`. -/
def Store.values {α : Type} (s : Store α) : List α :=
  s.map (fun e => e.2)

/-- Size, `StableBTreeMap.len`. -/
def Store.len {α : Type} (s : Store α) : Nat :=
  s.length

/-- Function `sanitizeString` (lines 106-108): `input.replace(/[<>]/g, '')`,
that is, delete every `<` and `>` character. -/
def sanitizeString (input : String) : String :=
  String.mk (input.data.filter (fun c => !(c == '<' || c == '>')))

/-- The candidate profile (`req.body` of POST /maternal-profiles).  Keys the
handler can default are `Option`-valued; `dueDateMs` is the millisecond value
`new Date(req.body.dueDate).getTime()` of the request's due date. -/
structure ProfileBody where
  name : Option String
  age : Option Int
  bloodType : Option String
  emergencyContact : Option String
  dueDateMs : Int
  primaryCareProviderId : String
  medicalHistory : Option (List String)
  allergies : Option (List String)
  id : Option String
  createdAt : Option Int
  lastUpdated : Option Int
  currentTrimester : Option Trimester
  riskLevel : Option RiskLevel
  isHighRiskPregnancy : Option Bool
deriving DecidableEq, Repr

/-- JavaScript `String.prototype.trim`: drop leading and trailing whitespace.
Modelled structurally over the character list (Lean's own `String.trim` is
equivalent on these inputs but does not reduce inside the kernel). -/
def jsTrim (s : String) : String :=
  String.mk (((s.data.dropWhile Char.isWhitespace).reverse.dropWhile
    Char.isWhitespace).reverse)

/-- Truthiness test `!profile.name`: absent or empty string is falsy. -/
def nameFalsy : Option String → Bool
  | none => true
  | some s => s == ""

/-- Truthiness test `!profile.age`: absent or zero is falsy. -/
def ageFalsy : Option Int → Bool
  | none => true
  | some a => a == 0

def bloodTypeList : List String :=
  ["A+", "A-", "B+", "B-", "AB+", "AB-", "O+", "O-"]

/-- Test `!profile.bloodType || !list.includes(profile.bloodType)`. -/
def bloodTypeBad : Option String → Bool
  | none => true
  | some bt => bt == "" || !(bloodTypeList.contains bt)

/-- Function `validateProfile` (lines 110-126).  Note the name rule: the lower bound
tests `profile.name.trim().length` but the upper bound tests the untrimmed
`profile.name.length`. -/
def validateProfile (profile : ProfileBody) : Option String :=
  if nameFalsy profile.name = true ∨ (jsTrim (profile.name.getD "")).length < 2 ∨
      (profile.name.getD "").length > 100 then
    some "Name must be between 2 and 100 characters"
  else if (profile.medicalHistory.getD []).any (fun history => history.length > 1000) then
    some "Medical history entries cannot exceed 1000 characters"
  else if ageFalsy profile.age = true ∨ profile.age.getD 0 < 16 ∨ profile.age.getD 0 > 60 then
    some "Age must be between 16 and 60"
  else if bloodTypeBad profile.bloodType = true then
    some "Invalid blood type"
  else
    none

/-- The metrics request body (`req.body` of POST /health-metrics).  `id`,
`recordedAt` and `isFlaggedForReview` are the keys whose defaults the
`...req.body` spread can override. -/
structure MetricsBody where
  maternalProfileId : String
  weight : Int
  bloodPressureSystolic : Int
  bloodPressureDiastolic : Int
  bloodSugar : Int
  hemoglobinLevels : Int
  fetalHeartRate : Option Int
  notes : String
  recordedById : String
  id : Option String
  recordedAt : Option Int
  isFlaggedForReview : Option Bool
deriving DecidableEq, Repr

/-- Function `validateHealthMetrics` (lines 128-139).  Each range check is guarded by
JavaScript truthiness of the reading, so a reading of `0` skips its check. -/
def validateHealthMetrics (metrics : MetricsBody) : Option String :=
  if metrics.bloodPressureSystolic ≠ 0 ∧
      (metrics.bloodPressureSystolic < 70 ∨ metrics.bloodPressureSystolic > 190) then
    some "Invalid systolic blood pressure range"
  else if metrics.bloodPressureDiastolic ≠ 0 ∧
      (metrics.bloodPressureDiastolic < 40 ∨ metrics.bloodPressureDiastolic > 120) then
    some "Invalid diastolic blood pressure range"
  else if metrics.bloodSugar ≠ 0 ∧ (metrics.bloodSugar < 30 ∨ metrics.bloodSugar > 500) then
    some "Invalid blood sugar range"
  else
    none

/-- Function `assessRisk` (lines 238-245). -/
def assessRisk (metrics : HealthMetrics) : Bool :=
  decide (metrics.bloodPressureSystolic ≥ 140) ||
  decide (metrics.bloodPressureDiastolic ≥ 90) ||
  decide (metrics.bloodSugar > 140) ||
  decide (metrics.hemoglobinLevels < 9)

/-- The object literal of POST /health-metrics (lines 215-220):
`{ id: uuidv4(), recordedAt: BigInt(ic.time()), isFlaggedForReview: false,
...req.body }` — defaults first, then the spread overrides them. -/
def buildMetrics (newId : String) (now : Int) (body : MetricsBody) : HealthMetrics :=
  { id := body.id.getD newId
    maternalProfileId := body.maternalProfileId
    recordedAt := body.recordedAt.getD now
    weight := body.weight
    bloodPressureSystolic := body.bloodPressureSystolic
    bloodPressureDiastolic := body.bloodPressureDiastolic
    bloodSugar := body.bloodSugar
    hemoglobinLevels := body.hemoglobinLevels
    fetalHeartRate := body.fetalHeartRate
    notes := body.notes
    recordedById := body.recordedById
    isFlaggedForReview := body.isFlaggedForReview.getD false }

/-- The alert object built by `createHighRiskAlert` (lines 247-259); `newAlertId`
models the `uuidv4()` call and `now` models `ic.time()`. -/
def highAlertOf (newAlertId : String) (now : Int) (metrics : HealthMetrics) : HealthAlert :=
  { id := newAlertId
    maternalProfileId := metrics.maternalProfileId
    createdAt := now
    severity := RiskLevel.HIGH
    description := "Abnormal health metrics detected"
    recommendedAction := "Immediate medical review required"
    resolved := false
    resolvedAt := none
    providerId := metrics.recordedById
    resolutionNotes := none
    escalationLevel := 1 }

/-- Function `createHighRiskAlert` (lines 247-262): builds the alert and inserts it
under its fresh id.  It never looks up or changes any existing alert. -/
def createHighRiskAlert (alertStorage : Store HealthAlert) (newAlertId : String)
    (now : Int) (metrics : HealthMetrics) : Store HealthAlert :=
  Store.insert alertStorage newAlertId (highAlertOf newAlertId now metrics)

/-- The five stable maps (lines 99-103). -/
structure SysState where
  maternalProfileStorage : Store MaternalProfile
  providerStorage : Store HealthcareProvider
  metricsStorage : Store HealthMetrics
  visitStorage : Store PrenatalVisit
  alertStorage : Store HealthAlert
deriving DecidableEq

/-- An error response: `res.status(code).json({ error: msg })`. -/
structure ApiError where
  code : Nat
  message : String
deriving DecidableEq, Repr

/-- Sanitization step `if (req.body.name) req.body.name = sanitizeString(req.body.name)` and the
same for `emergencyContact` (lines 159-164); sanitizing an absent or empty
string is the identity, so the truthiness guard reduces to `Option.map`. -/
def sanitizeProfileBody (body : ProfileBody) : ProfileBody :=
  { body with
    name := body.name.map sanitizeString
    emergencyContact := body.emergencyContact.map sanitizeString }

/-- The profile object literal of POST /maternal-profiles (lines 181-192):
defaults, then `...req.body`, then `dueDate:` computed from the body (the
explicit `dueDate:` comes after the spread, so it always wins). -/
def buildProfile (newId : String) (now : Int) (body : ProfileBody) : MaternalProfile :=
  { id := body.id.getD newId
    name := body.name.getD ""
    age := body.age.getD 0
    bloodType := body.bloodType.getD ""
    emergencyContact := body.emergencyContact.getD ""
    dueDate := body.dueDateMs * 1000000
    currentTrimester := body.currentTrimester.getD Trimester.FIRST
    riskLevel := body.riskLevel.getD RiskLevel.LOW
    primaryCareProviderId := body.primaryCareProviderId
    createdAt := body.createdAt.getD now
    lastUpdated := body.lastUpdated.getD now
    medicalHistory := body.medicalHistory.getD []
    allergies := body.allergies.getD []
    isHighRiskPregnancy := body.isHighRiskPregnancy.getD false }

/-- POST /maternal-profiles (lines 156-200): sanitize, validate, look up the
provider, reject an inactive provider, build and insert the profile. -/
def createProfile (s : SysState) (rawBody : ProfileBody) (newId : String) (now : Int) :
    Except ApiError (MaternalProfile × SysState) :=
  let body := sanitizeProfileBody rawBody
  match validateProfile body with
  | some e => Except.error ⟨400, e⟩
  | none =>
    match Store.get s.providerStorage body.primaryCareProviderId with
    | none => Except.error ⟨404, "Healthcare provider not found"⟩
    | some provider =>
      if provider.isActive = false then
        Except.error ⟨400, "Selected healthcare provider is not active"⟩
      else
        let profile := buildProfile newId now body
        Except.ok (profile,
          { s with maternalProfileStorage :=
              Store.insert s.maternalProfileStorage profile.id profile })

/-- POST /health-metrics (lines 203-235): require the profile to exist,
validate, build the snapshot, run `assessRisk`; on HIGH set
`isFlaggedForReview = true` and call `createHighRiskAlert`; insert the
snapshot. -/
def recordMetrics (s : SysState) (body : MetricsBody) (newMetricsId newAlertId : String)
    (now : Int) : Except ApiError (HealthMetrics × SysState) :=
  match Store.get s.maternalProfileStorage body.maternalProfileId with
  | none => Except.error ⟨404, "Maternal profile not found"⟩
  | some _ =>
    match validateHealthMetrics body with
    | some e => Except.error ⟨400, e⟩
    | none =>
      let base := buildMetrics newMetricsId now body
      let isHighRisk := assessRisk base
      let metrics := if isHighRisk then { base with isFlaggedForReview := true } else base
      let alerts :=
        if isHighRisk then createHighRiskAlert s.alertStorage newAlertId now metrics
        else s.alertStorage
      Except.ok (metrics,
        { s with
          metricsStorage := Store.insert s.metricsStorage metrics.id metrics
          alertStorage := alerts })

/-- The currently open (unresolved) alerts of a profile. -/
def openAlertsFor (s : SysState) (profileId : String) : List HealthAlert :=
  (Store.values s.alertStorage).filter
    (fun a => a.maternalProfileId == profileId && !a.resolved)

/-- Constant `NANOS_PER_MILLISECOND` (line 146). -/
def NANOS_PER_MILLISECOND : Int := 1000000

/-- Conversion `Number(ns / 1_000_000n)`: bigint division truncates toward zero. -/
def instantMs (ns : Int) : Int :=
  Int.tdiv ns NANOS_PER_MILLISECOND

/-- Rendering `new Date(ms).toISOString()` succeeds exactly when `ms` is within the
ECMAScript time-value range `|ms| ≤ 8 640 000 000 000 000`; outside it the
date is invalid and `toISOString` throws a RangeError. -/
def instantSerializable (ns : Int) : Bool :=
  decide (-8640000000000000 ≤ instantMs ns) && decide (instantMs ns ≤ 8640000000000000)

/-- The ISO-8601 rendering is modelled abstractly as an injective rendering
of the millisecond value; the claims only depend on success versus failure. -/
def isoOf (ns : Int) : String :=
  "ISO-8601:" ++ toString (instantMs ns)

/-- The response shape of `serializeProfile`: the three instants rendered as
strings, all other fields spread through unchanged. -/
structure SerializedProfile where
  id : String
  name : String
  age : Int
  bloodType : String
  emergencyContact : String
  dueDate : String
  currentTrimester : Trimester
  riskLevel : RiskLevel
  primaryCareProviderId : String
  createdAt : String
  lastUpdated : String
  medicalHistory : List String
  allergies : List String
  isHighRiskPregnancy : Bool
deriving DecidableEq, Repr

/-- Function `serializeProfile` (lines 265-282): if rendering any of the three instants
throws, the catch block returns the object with the sentinel string
`"Invalid Date"` in all three instant positions; it never rethrows. -/
def serializeProfile (profile : MaternalProfile) : SerializedProfile :=
  if instantSerializable profile.dueDate = true ∧
      instantSerializable profile.createdAt = true ∧
      instantSerializable profile.lastUpdated = true then
    { id := profile.id
      name := profile.name
      age := profile.age
      bloodType := profile.bloodType
      emergencyContact := profile.emergencyContact
      dueDate := isoOf profile.dueDate
      currentTrimester := profile.currentTrimester
      riskLevel := profile.riskLevel
      primaryCareProviderId := profile.primaryCareProviderId
      createdAt := isoOf profile.createdAt
      lastUpdated := isoOf profile.lastUpdated
      medicalHistory := profile.medicalHistory
      allergies := profile.allergies
      isHighRiskPregnancy := profile.isHighRiskPregnancy }
  else
    { id := profile.id
      name := profile.name
      age := profile.age
      bloodType := profile.bloodType
      emergencyContact := profile.emergencyContact
      dueDate := "Invalid Date"
      currentTrimester := profile.currentTrimester
      riskLevel := profile.riskLevel
      primaryCareProviderId := profile.primaryCareProviderId
      createdAt := "Invalid Date"
      lastUpdated := "Invalid Date"
      medicalHistory := profile.medicalHistory
      allergies := profile.allergies
      isHighRiskPregnancy := profile.isHighRiskPregnancy }

/-- The response shape of `serializeMetrics`. -/
structure SerializedMetrics where
  id : String
  maternalProfileId : String
  recordedAt : String
  weight : Int
  bloodPressureSystolic : Int
  bloodPressureDiastolic : Int
  bloodSugar : Int
  hemoglobinLevels : Int
  fetalHeartRate : Option Int
  notes : String
  recordedById : String
  isFlaggedForReview : Bool
deriving DecidableEq, Repr

/-- Function `serializeMetrics` (lines 284-294): the catch block rethrows
`new Error('Failed to serialize metrics data')` instead of degrading. -/
def serializeMetrics (metrics : HealthMetrics) : Except String SerializedMetrics :=
  if instantSerializable metrics.recordedAt = true then
    Except.ok
      { id := metrics.id
        maternalProfileId := metrics.maternalProfileId
        recordedAt := isoOf metrics.recordedAt
        weight := metrics.weight
        bloodPressureSystolic := metrics.bloodPressureSystolic
        bloodPressureDiastolic := metrics.bloodPressureDiastolic
        bloodSugar := metrics.bloodSugar
        hemoglobinLevels := metrics.hemoglobinLevels
        fetalHeartRate := metrics.fetalHeartRate
        notes := metrics.notes
        recordedById := metrics.recordedById
        isFlaggedForReview := metrics.isFlaggedForReview }
  else
    Except.error "Failed to serialize metrics data"

/-- The response shape of `serializeVisit`. -/
structure SerializedVisit where
  id : String
  maternalProfileId : String
  providerId : String
  scheduledDate : String
  completed : Bool
  visitType : String
  findings : String
  recommendations : String
  nextVisitDate : Option String
  prescriptions : List String
  followUpRequired : Bool
  cancellationReason : Option String
deriving DecidableEq, Repr

/-- Ternary `visit.nextVisitDate ? iso(...) : null`: a `0n` instant is falsy and maps
to `null` without attempting serialization. -/
def nullableTaken : Option Int → Option Int
  | none => none
  | some d => if d = 0 then none else some d

/-- Function `serializeVisit` (lines 296-309): the catch block rethrows
`new Error('Failed to serialize visit data')` instead of degrading. -/
def serializeVisit (visit : PrenatalVisit) : Except String SerializedVisit :=
  if instantSerializable visit.scheduledDate = true ∧
      (∀ d ∈ nullableTaken visit.nextVisitDate, instantSerializable d = true) then
    Except.ok
      { id := visit.id
        maternalProfileId := visit.maternalProfileId
        providerId := visit.providerId
        scheduledDate := isoOf visit.scheduledDate
        completed := visit.completed
        visitType := visit.visitType
        findings := visit.findings
        recommendations := visit.recommendations
        nextVisitDate := (nullableTaken visit.nextVisitDate).map isoOf
        prescriptions := visit.prescriptions
        followUpRequired := visit.followUpRequired
        cancellationReason := visit.cancellationReason }
  else
    Except.error "Failed to serialize visit data"

/-- The response shape of `serializeAlert`. -/
structure SerializedAlert where
  id : String
  maternalProfileId : String
  createdAt : String
  severity : RiskLevel
  description : String
  recommendedAction : String
  resolved : Bool
  resolvedAt : Option String
  providerId : String
  resolutionNotes : Option String
  escalationLevel : Int
deriving DecidableEq, Repr

/-- Function `serializeAlert` (lines 311-324): the catch block rethrows
`new Error('Failed to serialize alert data')` instead of degrading. -/
def serializeAlert (alert : HealthAlert) : Except String SerializedAlert :=
  if instantSerializable alert.createdAt = true ∧
      (∀ d ∈ nullableTaken alert.resolvedAt, instantSerializable d = true) then
    Except.ok
      { id := alert.id
        maternalProfileId := alert.maternalProfileId
        createdAt := isoOf alert.createdAt
        severity := alert.severity
        description := alert.description
        recommendedAction := alert.recommendedAction
        resolved := alert.resolved
        resolvedAt := (nullableTaken alert.resolvedAt).map isoOf
        providerId := alert.providerId
        resolutionNotes := alert.resolutionNotes
        escalationLevel := alert.escalationLevel }
  else
    Except.error "Failed to serialize alert data"

/-- Errors of the alert-resolution contract (spec section 4.3). -/
inductive ResolveError where
  | NotFound
  | AlreadyResolved
deriving DecidableEq, Repr

/-- Modelled from the spec: the repository declares the `HealthAlert` entity
with its `resolved`, `resolvedAt` and `resolutionNotes` fields
(src/src/index.ts lines 84-96) but contains no implementation of the
alert-resolution operation; this definition follows the spec contract
`resolveAlert(alertId, notes) -> Result` of section 4.3 word for word:
`NotFound` if the alert id is unknown, `AlreadyResolved` if already resolved
(state untouched), otherwise set `resolved = true`, `resolvedAt = now()`,
store the notes, and leave `escalationLevel` at its current value. -/
def resolveAlert (alerts : Store HealthAlert) (alertId : String) (notes : String)
    (now : Int) : Except ResolveError HealthAlert × Store HealthAlert :=
  match Store.get alerts alertId with
  | none => (Except.error ResolveError.NotFound, alerts)
  | some a =>
    if a.resolved = true then
      (Except.error ResolveError.AlreadyResolved, alerts)
    else
      let a2 := { a with
        resolved := true
        resolvedAt := some now
        resolutionNotes := some notes }
      (Except.ok a2, Store.insert alerts alertId a2)

/-- One state-changing transition of the program: a successful
POST /maternal-profiles or POST /health-metrics.  `uuidv4()` is modelled as a
fresh-id oracle: the ids it hands out are not already keys of the stores they
are inserted into.  Failing requests return an error without touching any
store, so they need no transition. -/
inductive Step : SysState → SysState → Prop where
  | createProfileOk (s : SysState) (rawBody : ProfileBody) (newId : String) (now : Int)
      (profile : MaternalProfile) (s2 : SysState)
      (hok : createProfile s rawBody newId now = Except.ok (profile, s2)) :
      Step s s2
  | recordMetricsOk (s : SysState) (body : MetricsBody) (newMetricsId newAlertId : String)
      (now : Int) (metrics : HealthMetrics) (s2 : SysState)
      (hfresh : Store.get s.alertStorage newAlertId = none)
      (hok : recordMetrics s body newMetricsId newAlertId now = Except.ok (metrics, s2)) :
      Step s s2

/-- The reachable states: stable storage may hold arbitrary pre-existing
profiles, providers, metrics and visits, but starts with no alerts; then the
program's operations run. -/
inductive Reachable : SysState → Prop where
  | init (profiles : Store MaternalProfile) (providers : Store HealthcareProvider)
      (metrics : Store HealthMetrics) (visits : Store PrenatalVisit) :
      Reachable
        { maternalProfileStorage := profiles
          providerStorage := providers
          metricsStorage := metrics
          visitStorage := visits
          alertStorage := [] }
  | step (s s2 : SysState) (hr : Reachable s) (hs : Step s s2) : Reachable s2

/-- Every stored alert is exactly as `createHighRiskAlert` made it. -/
def alertInvariant (s : SysState) : Prop :=
  ∀ e ∈ s.alertStorage, (e.2).severity = RiskLevel.HIGH ∧ (e.2).escalationLevel = 1 ∧
    (e.2).resolved = false ∧ (e.2).resolvedAt = none

/-- The state a request leaves behind: an error response touches no store. -/
def metricsStep (s : SysState) (body : MetricsBody) (newMetricsId newAlertId : String)
    (now : Int) : SysState :=
  match recordMetrics s body newMetricsId newAlertId now with
  | Except.ok (_, s2) => s2
  | Except.error _ => s

/-- The state a POST /maternal-profiles request leaves behind. -/
def profileStep (s : SysState) (rawBody : ProfileBody) (newId : String) (now : Int) :
    SysState :=
  match createProfile s rawBody newId now with
  | Except.ok (_, s2) => s2
  | Except.error _ => s

/-! ## Concrete fixtures used by witnesses and counterexamples -/

def provActive : HealthcareProvider :=
  { id := "prov1", name := "Dr. Achieng", specialization := "Obstetrics",
    licenseNumber := "L-100", contactInfo := "a@clinic", facilityId := "F1",
    isActive := true, lastUpdated := 0 }

def provInactive : HealthcareProvider :=
  { id := "prov2", name := "Dr. Otieno", specialization := "Obstetrics",
    licenseNumber := "L-200", contactInfo := "o@clinic", facilityId := "F1",
    isActive := false, lastUpdated := 0 }

def profileP1 : MaternalProfile :=
  { id := "p1", name := "Amina", age := 30, bloodType := "A+",
    emergencyContact := "0700", dueDate := 0, currentTrimester := Trimester.FIRST,
    riskLevel := RiskLevel.LOW, primaryCareProviderId := "prov1", createdAt := 0,
    lastUpdated := 0, medicalHistory := [], allergies := [],
    isHighRiskPregnancy := false }

def stateP1 : SysState :=
  { maternalProfileStorage := [("p1", profileP1)]
    providerStorage := [("prov1", provActive)]
    metricsStorage := []
    visitStorage := []
    alertStorage := [] }

/-- A HIGH-triggering request body: systolic 150. -/
def highBody : MetricsBody :=
  { maternalProfileId := "p1", weight := 60, bloodPressureSystolic := 150,
    bloodPressureDiastolic := 80, bloodSugar := 100, hemoglobinLevels := 12,
    fetalHeartRate := none, notes := "", recordedById := "prov1",
    id := none, recordedAt := none, isFlaggedForReview := none }

/-- A non-triggering request body. -/
def lowBody : MetricsBody :=
  { maternalProfileId := "p1", weight := 60, bloodPressureSystolic := 120,
    bloodPressureDiastolic := 80, bloodSugar := 100, hemoglobinLevels := 12,
    fetalHeartRate := none, notes := "", recordedById := "prov1",
    id := none, recordedAt := none, isFlaggedForReview := none }

/-- A non-triggering request body that itself carries
`isFlaggedForReview: true`. -/
def lowFlagBody : MetricsBody :=
  { lowBody with isFlaggedForReview := some true }

/-- A stored snapshot whose every reading is inside the validation ranges
but whose systolic reading is 150. -/
def inRangeHighMetrics : HealthMetrics :=
  { id := "m0", maternalProfileId := "p1", recordedAt := 0, weight := 60,
    bloodPressureSystolic := 150, bloodPressureDiastolic := 80, bloodSugar := 100,
    hemoglobinLevels := 12, fetalHeartRate := none, notes := "",
    recordedById := "prov1", isFlaggedForReview := false }

/-- The request body carrying the readings of `inRangeHighMetrics`. -/
def inRangeHighBody : MetricsBody :=
  { maternalProfileId := "p1", weight := 60, bloodPressureSystolic := 150,
    bloodPressureDiastolic := 80, bloodSugar := 100, hemoglobinLevels := 12,
    fetalHeartRate := none, notes := "", recordedById := "prov1",
    id := none, recordedAt := none, isFlaggedForReview := none }

/-- A snapshot with every reading strictly below the triggers. -/
def calmMetrics : HealthMetrics :=
  { inRangeHighMetrics with bloodPressureSystolic := 120 }

/-- A name of untrimmed length 101 whose trimmed length is 2: the string
`"ab"` followed by 99 spaces. -/
def longPadName : String :=
  "ab" ++ String.mk (List.replicate 99 (Char.ofNat 32))

/-- A candidate profile carrying `longPadName`, every other rule satisfied. -/
def longPadBody : ProfileBody :=
  { name := some longPadName, age := some 30, bloodType := some "A+",
    emergencyContact := none, dueDateMs := 0, primaryCareProviderId := "prov1",
    medicalHistory := none, allergies := none, id := none, createdAt := none,
    lastUpdated := none, currentTrimester := none, riskLevel := none,
    isHighRiskPregnancy := none }

/-- The state after recording the same HIGH-triggering readings twice for
profile p1. -/
def twoHighState : SysState :=
  metricsStep (metricsStep stateP1 highBody "m1" "a1" 5) highBody "m2" "a2" 6

def alertResolved : HealthAlert :=
  { id := "a1", maternalProfileId := "p1", createdAt := 0, severity := RiskLevel.HIGH,
    description := "Abnormal health metrics detected",
    recommendedAction := "Immediate medical review required", resolved := true,
    resolvedAt := some 3, providerId := "prov1", resolutionNotes := some "seen",
    escalationLevel := 2 }

def alertOpen : HealthAlert :=
  { alertResolved with
    id := "a2"
    resolved := false
    resolvedAt := none
    resolutionNotes := none
    escalationLevel := 1 }

def demoAlerts : Store HealthAlert :=
  [("a1", alertResolved), ("a2", alertOpen)]

def sInactive : SysState :=
  { maternalProfileStorage := []
    providerStorage := [("prov2", provInactive)]
    metricsStorage := []
    visitStorage := []
    alertStorage := [] }

def badNameInactiveBody : ProfileBody :=
  { name := some "x", age := some 30, bloodType := some "A+", emergencyContact := none,
    dueDateMs := 0, primaryCareProviderId := "prov2", medicalHistory := none,
    allergies := none, id := none, createdAt := none, lastUpdated := none,
    currentTrimester := none, riskLevel := none, isHighRiskPregnancy := none }

/-- An instant whose millisecond value exceeds the ECMAScript date range. -/
def badInstant : Int := 8640000000000001 * 1000000

def badMetrics : HealthMetrics :=
  { inRangeHighMetrics with recordedAt := badInstant }

def badProfile : MaternalProfile :=
  { profileP1 with dueDate := badInstant }

def visitV1 : PrenatalVisit :=
  { id := "v1", maternalProfileId := "p1", providerId := "prov1", scheduledDate := 0,
    completed := false, visitType := "routine", findings := "", recommendations := "",
    nextVisitDate := none, prescriptions := [], followUpRequired := false,
    cancellationReason := none }

def badVisit : PrenatalVisit :=
  { visitV1 with scheduledDate := badInstant }

def badAlert : HealthAlert :=
  { alertOpen with createdAt := badInstant }

/-! ## Store helper lemmas -/

theorem Store.get_eq_none_forall {α : Type} {s : Store α} {k : String}
    (h : Store.get s k = none) : ∀ e ∈ s, (e.1 == k) = false := by
  intro e he
  unfold Store.get at h
  rw [Option.map_eq_none'] at h
  have := List.find?_eq_none.mp h e he
  simpa using this

theorem Store.mem_insert_iff {α : Type} {s : Store α} {k : String} {v : α}
    {e : String × α} :
    e ∈ Store.insert s k v ↔ e = (k, v) ∨ (e ∈ s ∧ (e.1 == k) = false) := by
  unfold Store.insert
  simp [List.mem_filter, List.mem_cons]

theorem Store.mem_insert_of_mem {α : Type} {s : Store α} {k : String} {v : α}
    {e : String × α} (hfresh : Store.get s k = none) (he : e ∈ s) :
    e ∈ Store.insert s k v :=
  Store.mem_insert_iff.mpr (Or.inr ⟨he, Store.get_eq_none_forall hfresh e he⟩)

theorem Store.get_insert_self {α : Type} (s : Store α) (k : String) (v : α) :
    Store.get (Store.insert s k v) k = some v := by
  unfold Store.get Store.insert
  simp

/-- Inversion of a successful POST /health-metrics: the body validated, the
returned snapshot is the built one (flagged when the verdict is HIGH), and the
new state stores that snapshot and, on HIGH, the alert made by
`createHighRiskAlert`. -/
theorem recordMetrics_ok_inv (s : SysState) (b : MetricsBody) (mid aid : String)
    (now : Int) (metrics : HealthMetrics) (s2 : SysState)
    (h : recordMetrics s b mid aid now = Except.ok (metrics, s2)) :
    validateHealthMetrics b = none ∧
    metrics = (if assessRisk (buildMetrics mid now b) then
        { buildMetrics mid now b with isFlaggedForReview := true }
      else buildMetrics mid now b) ∧
    s2 = { s with
      metricsStorage := Store.insert s.metricsStorage metrics.id metrics
      alertStorage :=
        if assessRisk (buildMetrics mid now b) then
          createHighRiskAlert s.alertStorage aid now metrics
        else s.alertStorage } := by
  unfold recordMetrics at h
  split at h
  · exact Except.noConfusion h
  · split at h
    · exact Except.noConfusion h
    · rename_i hv
      simp only [Except.ok.injEq, Prod.mk.injEq] at h
      obtain ⟨hm, hs⟩ := h
      subst hm
      exact ⟨hv, rfl, hs.symm⟩

/-! ## Claim C3 — the risk classifier -/

/-- C3: `assessRisk` is a deterministic pure function (a Lean function of the
snapshot alone) returning HIGH exactly when systolic ≥ 140, or diastolic ≥ 90,
or blood sugar > 140, or hemoglobin < 9 — an order-independent OR of the four
triggers — and LOW otherwise; in particular any snapshot with systolic ≥ 140
is classified HIGH. -/
theorem assessRisk_high_iff (m : HealthMetrics) :
    (assessRisk m = true ↔
      (m.bloodPressureSystolic ≥ 140 ∨ m.bloodPressureDiastolic ≥ 90 ∨
        m.bloodSugar > 140 ∨ m.hemoglobinLevels < 9)) ∧
    (m.bloodPressureSystolic ≥ 140 → assessRisk m = true) := by
  constructor
  · simp [assessRisk, Bool.or_eq_true, decide_eq_true_eq, or_assoc]
  · intro h
    simp [assessRisk, h]

theorem assessRisk_high_iff_witness : assessRisk inRangeHighMetrics = true :=
  (assessRisk_high_iff inRangeHighMetrics).2 (by decide)

/-! ## Claim C5 — in-range metrics are not all LOW -/

/-- C5 counterexample: every reading of `inRangeHighMetrics` lies inside the
validation ranges (systolic 150 ∈ [70,190], diastolic 80 ∈ [40,120], blood
sugar 100 ∈ [30,500]) and the corresponding request body passes
`validateHealthMetrics`, yet the classifier verdict is HIGH, not LOW. -/
theorem validRanges_not_low_counterexample :
    (70 ≤ inRangeHighMetrics.bloodPressureSystolic ∧
      inRangeHighMetrics.bloodPressureSystolic ≤ 190) ∧
    (40 ≤ inRangeHighMetrics.bloodPressureDiastolic ∧
      inRangeHighMetrics.bloodPressureDiastolic ≤ 120) ∧
    (30 ≤ inRangeHighMetrics.bloodSugar ∧ inRangeHighMetrics.bloodSugar ≤ 500) ∧
    validateHealthMetrics inRangeHighBody = none ∧
    assessRisk inRangeHighMetrics = true := by
  refine ⟨by decide, by decide, by decide, by decide, by decide⟩

/-- C5 amended: a snapshot whose readings lie within the validation ranges AND
strictly below every HIGH trigger (systolic < 140, diastolic < 90, blood sugar
≤ 140, hemoglobin ≥ 9) is classified LOW. -/
theorem validRanges_below_triggers_low (m : HealthMetrics)
    (hs : 70 ≤ m.bloodPressureSystolic ∧ m.bloodPressureSystolic < 140)
    (hd : 40 ≤ m.bloodPressureDiastolic ∧ m.bloodPressureDiastolic < 90)
    (hb : 30 ≤ m.bloodSugar ∧ m.bloodSugar ≤ 140)
    (hh : 9 ≤ m.hemoglobinLevels) :
    assessRisk m = false := by
  simp only [assessRisk, Bool.or_eq_false_iff, decide_eq_false_iff_not, not_lt, not_le]
  omega

theorem validRanges_below_triggers_low_witness : assessRisk calmMetrics = false :=
  validRanges_below_triggers_low calmMetrics (by decide) (by decide) (by decide) (by decide)

/-! ## Claim C10 — sanitizeString -/

/-- C10: `sanitizeString` removes every `<` and `>` from its input, and it is
idempotent. -/
theorem sanitizeString_clean_and_idempotent (s : String) :
    (∀ c ∈ (sanitizeString s).data, c ≠ '<' ∧ c ≠ '>') ∧
    sanitizeString (sanitizeString s) = sanitizeString s := by
  constructor
  · intro c hc
    unfold sanitizeString at hc
    rw [List.mem_filter] at hc
    have hb := hc.2
    simp only [Bool.not_eq_true', Bool.or_eq_false_iff, beq_eq_false_iff_ne] at hb
    exact hb
  · unfold sanitizeString
    congr 1
    rw [List.filter_eq_self]
    intro a ha
    exact (List.mem_filter.mp ha).2

theorem sanitizeString_clean_and_idempotent_witness :
    ('s' ∈ (sanitizeString "<b>safe</b>").data) ∧ 's' ≠ '<' ∧ 's' ≠ '>' ∧
    sanitizeString (sanitizeString "<b>safe</b>") = sanitizeString "<b>safe</b>" := by
  have h1 := (sanitizeString_clean_and_idempotent "<b>safe</b>").1 's' (by decide)
  exact ⟨by decide, h1.1, h1.2, (sanitizeString_clean_and_idempotent "<b>safe</b>").2⟩

/-! ## Claim C8 — the name rule of validateProfile -/

/-- C8 counterexample: a candidate whose name is `"ab"` followed by 99 spaces
has trimmed length 2 (inside [2,100]) but is rejected with the name error,
because the upper bound of the rule tests the untrimmed length (101 > 100). -/
theorem validateProfile_name_rule_counterexample :
    2 ≤ (jsTrim longPadName).length ∧ (jsTrim longPadName).length ≤ 100 ∧
    validateProfile longPadBody = some "Name must be between 2 and 100 characters" := by
  refine ⟨by decide, by decide, by decide⟩

/-- C8 amended: `validateProfile` reports the name error exactly when the name
is absent or empty, or its trimmed length is below 2, or its UNTRIMMED length
is above 100 (the name rule is checked first, so a violation of it is always
the error reported); every candidate whose name passes that test is never
given the name error. -/
theorem validateProfile_name_rule (p : ProfileBody) :
    validateProfile p = some "Name must be between 2 and 100 characters" ↔
      (nameFalsy p.name = true ∨ (jsTrim (p.name.getD "")).length < 2 ∨
        (p.name.getD "").length > 100) := by
  constructor
  · intro h
    by_contra hc
    unfold validateProfile at h
    rw [if_neg hc] at h
    split at h
    · exact absurd (Option.some.inj h) (by decide)
    · split at h
      · exact absurd (Option.some.inj h) (by decide)
      · split at h
        · exact absurd (Option.some.inj h) (by decide)
        · exact Option.noConfusion h
  · intro h
    unfold validateProfile
    rw [if_pos h]

/-! ## Claim C2 — the review flag -/

/-- C2 counterexample: a request body that itself carries
`isFlaggedForReview: true` with non-triggering readings is accepted, the
verdict is LOW, and yet the stored snapshot has `isFlaggedForReview = true`,
because the `...req.body` spread overrides the handler's `false` default. -/
theorem recordMetrics_flag_counterexample :
    assessRisk (buildMetrics "m1" 5 lowFlagBody) = false ∧
    recordMetrics stateP1 lowFlagBody "m1" "a1" 5 =
      Except.ok (buildMetrics "m1" 5 lowFlagBody,
        { stateP1 with metricsStorage :=
            Store.insert stateP1.metricsStorage "m1" (buildMetrics "m1" 5 lowFlagBody) }) ∧
    (buildMetrics "m1" 5 lowFlagBody).isFlaggedForReview = true := by
  refine ⟨by decide, by rfl, by decide⟩

/-- C2 amended: for every accepted and stored snapshot, the stored flag is
`verdict-is-HIGH OR the request body itself supplied isFlaggedForReview =
true` (the spread overrides the default); when the verdict is LOW no alert is
created and the stored flag equals the body-supplied value, which is `false`
whenever the body does not carry the key. -/
theorem recordMetrics_flag_characterization (s : SysState) (b : MetricsBody)
    (mid aid : String) (now : Int) (metrics : HealthMetrics) (s2 : SysState)
    (h : recordMetrics s b mid aid now = Except.ok (metrics, s2)) :
    Store.get s2.metricsStorage metrics.id = some metrics ∧
    metrics.isFlaggedForReview =
      (assessRisk (buildMetrics mid now b) || b.isFlaggedForReview.getD false) ∧
    (assessRisk (buildMetrics mid now b) = false →
      s2.alertStorage = s.alertStorage ∧
      metrics.isFlaggedForReview = b.isFlaggedForReview.getD false) := by
  obtain ⟨hv, hm, hs⟩ := recordMetrics_ok_inv s b mid aid now metrics s2 h
  subst hm
  subst hs
  refine ⟨Store.get_insert_self _ _ _, ?_, ?_⟩
  · cases assessRisk (buildMetrics mid now b) with
    | false => rfl
    | true => rfl
  · intro hrf
    have hneg : ¬ (assessRisk (buildMetrics mid now b) = true) := by simp [hrf]
    simp only [if_neg hneg]
    exact ⟨trivial, rfl⟩

theorem recordMetrics_flag_characterization_witness :
    (buildMetrics "m3" 9 lowBody).isFlaggedForReview =
      (assessRisk (buildMetrics "m3" 9 lowBody) || lowBody.isFlaggedForReview.getD false) :=
  ((recordMetrics_flag_characterization stateP1 lowBody "m3" "a3" 9
    (buildMetrics "m3" 9 lowBody)
    { stateP1 with metricsStorage :=
        Store.insert stateP1.metricsStorage "m3" (buildMetrics "m3" 9 lowBody) }
    (by rfl)).2).1

/-! ## Claim C1 — alert escalation -/

/-- C1 counterexample: both HIGH-triggering recordings are accepted, yet the
profile ends with TWO open alerts, each with escalationLevel 1 — not one open
alert with escalationLevel 2: `createHighRiskAlert` never looks up an existing
open alert and never increments anything. -/
theorem two_high_recordings_counterexample :
    (recordMetrics stateP1 highBody "m1" "a1" 5).toOption.isSome = true ∧
    (recordMetrics (metricsStep stateP1 highBody "m1" "a1" 5) highBody "m2" "a2"
      6).toOption.isSome = true ∧
    (openAlertsFor twoHighState "p1").length = 2 ∧
    ((openAlertsFor twoHighState "p1").map (fun a => a.escalationLevel)) = [1, 1] ∧
    ¬ ((openAlertsFor twoHighState "p1").length = 1) := by
  refine ⟨by rfl, by rfl, by rfl, by rfl, by decide⟩

/-- C1 amended: an accepted HIGH-triggering snapshot always inserts a
brand-new alert under the fresh id, with escalationLevel = 1 and unresolved,
and leaves every pre-existing alert untouched; no escalation of an open alert
ever happens, so two consecutive HIGH-triggering recordings leave two open
alerts, each with escalationLevel = 1. -/
theorem recordMetrics_high_new_alert (s : SysState) (b : MetricsBody) (mid aid : String)
    (now : Int) (metrics : HealthMetrics) (s2 : SysState)
    (h : recordMetrics s b mid aid now = Except.ok (metrics, s2))
    (hr : assessRisk (buildMetrics mid now b) = true)
    (hfresh : Store.get s.alertStorage aid = none) :
    s2.alertStorage = Store.insert s.alertStorage aid (highAlertOf aid now metrics) ∧
    (highAlertOf aid now metrics).escalationLevel = 1 ∧
    (highAlertOf aid now metrics).resolved = false ∧
    Store.get s2.alertStorage aid = some (highAlertOf aid now metrics) ∧
    (∀ e ∈ s.alertStorage, e ∈ s2.alertStorage) := by
  obtain ⟨hv, hm, hs⟩ := recordMetrics_ok_inv s b mid aid now metrics s2 h
  subst hs
  simp only [hr, if_true]
  refine ⟨rfl, rfl, rfl, ?_, ?_⟩
  · exact Store.get_insert_self _ _ _
  · intro e he
    exact Store.mem_insert_of_mem hfresh he

/-! ## Claim C4 — the alert-resolution contract (spec-modelled) -/

/-- C4: `resolveAlert` fails with NotFound when the id is unknown; fails with
AlreadyResolved when the alert is already resolved, leaving the store (and so
every field of the alert) unchanged; and on success sets `resolved = true`,
`resolvedAt` to the current time, stores the notes, and freezes
`escalationLevel` at its current value. -/
theorem resolveAlert_contract (alerts : Store HealthAlert) (alertId notes : String)
    (now : Int) :
    (Store.get alerts alertId = none →
      resolveAlert alerts alertId notes now = (Except.error ResolveError.NotFound, alerts)) ∧
    (∀ a, Store.get alerts alertId = some a → a.resolved = true →
      resolveAlert alerts alertId notes now =
        (Except.error ResolveError.AlreadyResolved, alerts)) ∧
    (∀ a, Store.get alerts alertId = some a → a.resolved = false →
      resolveAlert alerts alertId notes now =
        (Except.ok { a with resolved := true, resolvedAt := some now, resolutionNotes := some notes },
          Store.insert alerts alertId
            { a with resolved := true, resolvedAt := some now, resolutionNotes := some notes }) ∧
      ({ a with resolved := true, resolvedAt := some now, resolutionNotes := some notes }
          : HealthAlert).escalationLevel = a.escalationLevel) := by
  refine ⟨?_, ?_, ?_⟩
  · intro hget
    simp [resolveAlert, hget]
  · intro a hget hres
    simp [resolveAlert, hget, hres]
  · intro a hget hres
    refine ⟨?_, rfl⟩
    simp [resolveAlert, hget, hres]

theorem resolveAlert_contract_witness :
    resolveAlert demoAlerts "zzz" "note" 7 = (Except.error ResolveError.NotFound, demoAlerts) ∧
    resolveAlert demoAlerts "a1" "note" 7 =
      (Except.error ResolveError.AlreadyResolved, demoAlerts) ∧
    resolveAlert demoAlerts "a2" "note" 7 =
      (Except.ok { alertOpen with resolved := true, resolvedAt := some 7, resolutionNotes := some "note" },
        Store.insert demoAlerts "a2"
          { alertOpen with resolved := true, resolvedAt := some 7, resolutionNotes := some "note" }) :=
  ⟨(resolveAlert_contract demoAlerts "zzz" "note" 7).1 (by rfl),
   (resolveAlert_contract demoAlerts "a1" "note" 7).2.1 alertResolved (by rfl) (by rfl),
   ((resolveAlert_contract demoAlerts "a2" "note" 7).2.2 alertOpen (by rfl) (by rfl)).1⟩

/-! ## Claim C6 — inactive provider on profile creation -/

/-- C6 counterexample: a create-profile request whose provider is stored and
inactive but whose name fails validation is rejected with the VALIDATION
error, not the 'provider not active' error, because validation runs first. -/
theorem createProfile_inactive_counterexample :
    Store.get sInactive.providerStorage badNameInactiveBody.primaryCareProviderId =
      some provInactive ∧
    provInactive.isActive = false ∧
    createProfile sInactive badNameInactiveBody "id1" 0 =
      Except.error ⟨400, "Name must be between 2 and 100 characters"⟩ ∧
    ("Name must be between 2 and 100 characters" : String) ≠
      "Selected healthcare provider is not active" := by
  refine ⟨by rfl, by rfl, by rfl, by decide⟩

/-- C6 amended: for every create-profile request whose sanitized body passes
validation and whose primaryCareProviderId references a stored provider with
isActive = false, the operation fails with the 'provider not active' error
and no profile is persisted: the whole state is exactly as before. -/
theorem createProfile_inactive_rejected (s : SysState) (rawBody : ProfileBody)
    (newId : String) (now : Int) (p : HealthcareProvider)
    (hv : validateProfile (sanitizeProfileBody rawBody) = none)
    (hget : Store.get s.providerStorage rawBody.primaryCareProviderId = some p)
    (hact : p.isActive = false) :
    createProfile s rawBody newId now =
      Except.error ⟨400, "Selected healthcare provider is not active"⟩ ∧
    profileStep s rawBody newId now = s := by
  have hget2 : Store.get s.providerStorage
      (sanitizeProfileBody rawBody).primaryCareProviderId = some p := hget
  have hmain : createProfile s rawBody newId now =
      Except.error ⟨400, "Selected healthcare provider is not active"⟩ := by
    simp only [createProfile, hv, hget2, if_pos hact]
  refine ⟨hmain, ?_⟩
  unfold profileStep
  rw [hmain]

theorem createProfile_inactive_rejected_witness :
    createProfile sInactive { badNameInactiveBody with name := some "Awino" } "id1" 0 =
      Except.error ⟨400, "Selected healthcare provider is not active"⟩ ∧
    profileStep sInactive { badNameInactiveBody with name := some "Awino" } "id1" 0 =
      sInactive :=
  createProfile_inactive_rejected sInactive
    { badNameInactiveBody with name := some "Awino" } "id1" 0 provInactive
    (by rfl) (by rfl) (by rfl)

/-! ## Claim C7 — serialization failure behaviour -/

/-- C7 counterexample: a stored metrics snapshot whose instant is malformed is
NOT degraded to a sentinel value: `serializeMetrics` signals the rethrown
`'Failed to serialize metrics data'` error, which propagates to its caller. -/
theorem serializeMetrics_counterexample :
    instantSerializable badMetrics.recordedAt = false ∧
    serializeMetrics badMetrics = Except.error "Failed to serialize metrics data" := by
  refine ⟨by decide, by rfl⟩

/-- C7 amended: only the PROFILE serializer degrades a malformed instant to
the sentinel `"Invalid Date"` (in all three instant positions); the metrics,
visit and alert serializers instead rethrow an error
(`'Failed to serialize … data'`), which propagates to the route handler. -/
theorem serializers_failure_behaviour :
    (∀ p : MaternalProfile,
      ¬ (instantSerializable p.dueDate = true ∧ instantSerializable p.createdAt = true ∧
          instantSerializable p.lastUpdated = true) →
      (serializeProfile p).dueDate = "Invalid Date" ∧
      (serializeProfile p).createdAt = "Invalid Date" ∧
      (serializeProfile p).lastUpdated = "Invalid Date") ∧
    (∀ m : HealthMetrics, instantSerializable m.recordedAt = false →
      serializeMetrics m = Except.error "Failed to serialize metrics data") ∧
    (∀ v : PrenatalVisit, instantSerializable v.scheduledDate = false →
      serializeVisit v = Except.error "Failed to serialize visit data") ∧
    (∀ a : HealthAlert, instantSerializable a.createdAt = false →
      serializeAlert a = Except.error "Failed to serialize alert data") := by
  refine ⟨?_, ?_, ?_, ?_⟩
  · intro p hbad
    unfold serializeProfile
    rw [if_neg hbad]
    exact ⟨rfl, rfl, rfl⟩
  · intro m hbad
    unfold serializeMetrics
    rw [if_neg (by simp [hbad])]
  · intro v hbad
    unfold serializeVisit
    rw [if_neg (by simp [hbad])]
  · intro a hbad
    unfold serializeAlert
    rw [if_neg (by simp [hbad])]

theorem serializers_failure_behaviour_witness :
    ((serializeProfile badProfile).dueDate = "Invalid Date" ∧
      (serializeProfile badProfile).createdAt = "Invalid Date" ∧
      (serializeProfile badProfile).lastUpdated = "Invalid Date") ∧
    serializeMetrics badMetrics = Except.error "Failed to serialize metrics data" ∧
    serializeVisit badVisit = Except.error "Failed to serialize visit data" ∧
    serializeAlert badAlert = Except.error "Failed to serialize alert data" :=
  ⟨serializers_failure_behaviour.1 badProfile (by decide),
   serializers_failure_behaviour.2.1 badMetrics (by decide),
   serializers_failure_behaviour.2.2.1 badVisit (by decide),
   serializers_failure_behaviour.2.2.2 badAlert (by decide)⟩

/-! ## Claim C9 — alerts are inserted HIGH/level 1 and never touched again -/

/-- Inversion of a successful POST /maternal-profiles: the only store that
changes is the profile store. -/
theorem createProfile_ok_inv (s : SysState) (rawBody : ProfileBody) (newId : String)
    (now : Int) (profile : MaternalProfile) (s2 : SysState)
    (h : createProfile s rawBody newId now = Except.ok (profile, s2)) :
    s2 = { s with maternalProfileStorage :=
      Store.insert s.maternalProfileStorage profile.id profile } := by
  simp only [createProfile] at h
  split at h
  · exact Except.noConfusion h
  · split at h
    · exact Except.noConfusion h
    · split at h
      · exact Except.noConfusion h
      · simp only [Except.ok.injEq, Prod.mk.injEq] at h
        obtain ⟨hp, hs⟩ := h
        subst hp
        exact hs.symm

/-- On success, the alert store either stays as it was (LOW verdict) or gains
exactly the alert built by `createHighRiskAlert` (HIGH verdict). -/
theorem recordMetrics_ok_alerts (s : SysState) (b : MetricsBody) (mid aid : String)
    (now : Int) (metrics : HealthMetrics) (s2 : SysState)
    (h : recordMetrics s b mid aid now = Except.ok (metrics, s2)) :
    s2.alertStorage = s.alertStorage ∨
    s2.alertStorage = Store.insert s.alertStorage aid (highAlertOf aid now metrics) := by
  obtain ⟨hv, hm, hs2⟩ := recordMetrics_ok_inv s b mid aid now metrics s2 h
  subst hs2
  by_cases hr : assessRisk (buildMetrics mid now b) = true
  · right
    simp only [if_pos hr]
    rfl
  · left
    simp only [if_neg hr]

/-- C9: every alert ever inserted into alert storage is created by
`createHighRiskAlert` with severity HIGH, escalationLevel 1, unresolved and
`resolvedAt = null`; no operation of the program modifies or removes a stored
alert (`uuidv4` modelled as fresh ids), so in every reachable state every
stored alert is unresolved with escalation level 1. -/
theorem alerts_immutable_level_one :
    (∀ s s2, Step s s2 → ∀ e ∈ s.alertStorage, e ∈ s2.alertStorage) ∧
    (∀ s, Reachable s → alertInvariant s) := by
  have hstep : ∀ s s2, Step s s2 →
      (∀ e ∈ s.alertStorage, e ∈ s2.alertStorage) ∧
      (alertInvariant s → alertInvariant s2) := by
    intro s s2 hs
    match hs with
    | Step.createProfileOk s rawBody newId now profile s2 hok =>
      have h2 := createProfile_ok_inv s rawBody newId now profile s2 hok
      subst h2
      exact ⟨fun e he => he, fun hi => hi⟩
    | Step.recordMetricsOk s body mid aid now metrics s2 hfresh hok =>
      rcases recordMetrics_ok_alerts s body mid aid now metrics s2 hok with heq | heq
      · refine ⟨?_, ?_⟩
        · intro e he
          rw [heq]
          exact he
        · intro hi e he
          rw [heq] at he
          exact hi e he
      · constructor
        · intro e he
          rw [heq]
          exact Store.mem_insert_of_mem hfresh he
        · intro hi e he
          rw [heq] at he
          rcases Store.mem_insert_iff.mp he with rfl | ⟨hmem, _⟩
          · exact ⟨rfl, rfl, rfl, rfl⟩
          · exact hi e hmem
  refine ⟨fun s s2 hs => (hstep s s2 hs).1, ?_⟩
  intro s hr
  induction hr with
  | init profiles providers metricsStore visits =>
    intro e he
    exact absurd he (List.not_mem_nil e)
  | step s s2 hr2 hs ih =>
    exact (hstep s s2 hs).2 ih

theorem alerts_immutable_level_one_witness :
    alertInvariant (metricsStep stateP1 highBody "m1" "a1" 5) :=
  alerts_immutable_level_one.2 _
    (Reachable.step _ _
      (Reachable.init [("p1", profileP1)] [("prov1", provActive)] [] [])
      (Step.recordMetricsOk stateP1 highBody "m1" "a1" 5
        { buildMetrics "m1" 5 highBody with isFlaggedForReview := true }
        (metricsStep stateP1 highBody "m1" "a1" 5) (by rfl) (by rfl)))

theorem recordMetrics_high_new_alert_witness :
    (metricsStep stateP1 highBody "m1" "a1" 5).alertStorage =
      Store.insert stateP1.alertStorage "a1"
        (highAlertOf "a1" 5 { buildMetrics "m1" 5 highBody with isFlaggedForReview := true }) ∧
    (highAlertOf "a1" 5
      { buildMetrics "m1" 5 highBody with isFlaggedForReview := true }).escalationLevel = 1 :=
  ⟨(recordMetrics_high_new_alert stateP1 highBody "m1" "a1" 5
      { buildMetrics "m1" 5 highBody with isFlaggedForReview := true }
      (metricsStep stateP1 highBody "m1" "a1" 5) (by rfl) (by decide) (by rfl)).1,
   (recordMetrics_high_new_alert stateP1 highBody "m1" "a1" 5
      { buildMetrics "m1" 5 highBody with isFlaggedForReview := true }
      (metricsStep stateP1 highBody "m1" "a1" 5) (by rfl) (by decide) (by rfl)).2.1⟩

end MaternalHealth
